import Mathlib

/-!
# Verification of the BreathObsever respiratory-rate script

Shallow embedding of `Sources/BreathObsever/Script/rr.py`.

The script parses `sys.argv[1]`, then overwrites the parsed samples with a
synthetic 1000 Hz sine (120000 samples at 24000 Hz), pushes the buffer
through the SciPy pipeline

  resample → hilbert envelope → butterworth filtfilt →
  convolve with hanning(50) → resample → welch PSD → findPeakIndex

and echoes `frequencies[peak]`.

Modelling conventions:
* Python floats are modelled as exact rationals (`ℚ`) where the pipeline's
  control quantities (lengths, frequency grids, comparisons) are concerned,
  and as `ℝ` where the source calls transcendental functions (`np.sin`,
  `np.cos`, magnitudes).
* SciPy primitives (`resample`, `hilbert`, `butter`, `filtfilt`, `welch`)
  are third-party library calls; they enter the embedding as parameters of a
  `SciPy` structure, constrained only by their documented input/output
  contracts (e.g. `resample(x, num)` has length `num`).  The welch
  one-sided frequency grid, which the script's result is read from, is
  modelled explicitly (`welchFrequencies`).
* Python runtime failure is modelled with `Except PyError`.
-/

/-- Error outcomes a run of the script can surface, plus the error names the
specification's taxonomy uses for comparison. -/
inductive PyError where
  | unboundLocal
  | indexError
  | emptyInput
  | invalidLength
  deriving DecidableEq, Repr

/-- Python's `int()` applied to a real number: truncation toward zero. -/
def pyInt (q : ℚ) : ℤ :=
  if 0 ≤ q then ⌊q⌋ else ⌈q⌉

/-- One iteration of the loop body of `findPeakIndex` in `rr.py`.
State is `(peakIndex, currentPeak, index)`, where the third component is the
Python loop variable (`none` models "not yet bound"). -/
def peakStep {α : Type} [LinearOrderedField α] (array : List α)
    (s : ℕ × α × Option ℕ) (i : ℕ) : ℕ × α × Option ℕ :=
  if array.getD i 0 > s.2.1 then (i, array.getD i 0, some i)
  else (s.1, s.2.1, some i)

/-- Source function `findPeakIndex` from `rr.py`:

    peakIndex = 0
    currentPeak = -1
    for index in range(0, len(array) - 1):
        if array[index] > currentPeak:
            currentPeak = array[index]
            peakIndex = index
    return index

Note the function returns the loop variable `index`, not `peakIndex`; when
the loop body never runs (`len(array) < 2`) the returned name is unbound and
the call raises, modelled by `PyError.unboundLocal`. -/
def findPeakIndex {α : Type} [LinearOrderedField α] (array : List α) :
    Except PyError ℕ :=
  match ((List.range (array.length - 1)).foldl (peakStep array) (0, -1, none)).2.2 with
  | some i => Except.ok i
  | none => Except.error PyError.unboundLocal

/-- Modelled from the spec: the PeakSelector contract of §4.6 — scan the
power sequence left to right keeping a strictly-greater-than comparison over
all bins, and return the first index attaining the maximum power (`none` on
empty input, where the spec prescribes an EmptyInput failure). -/
def specPeakIndex {α : Type} [LinearOrderedField α] (powers : List α) :
    Option ℕ :=
  match powers with
  | [] => none
  | p :: rest =>
    some ((rest.foldl
      (fun (s : ℕ × α × ℕ) q =>
        if q > s.2.1 then (s.2.2, q, s.2.2 + 1) else (s.1, s.2.1, s.2.2 + 1))
      (0, p, 1)).1)

/-- The length argument the script passes to `scipy.signal.resample`:
`int(len(samples) * (ftgt / fsrc))`. -/
def resampleTargetLen (N : ℕ) (fsrc ftgt : ℚ) : ℕ :=
  (pyInt ((N : ℚ) * (ftgt / fsrc))).toNat

/-- A resampling stage as invoked in `rr.py`:
`resample(x, int(len(x) * (ftgt / fsrc)))`, with the library primitive `r`
as a parameter. -/
def resampleStage {α : Type} (r : List α → ℕ → List α) (x : List α)
    (fsrc ftgt : ℚ) : List α :=
  r x (resampleTargetLen x.length fsrc ftgt)

/-- Modelled from the spec (§4.1): the resampling stage's output length as
the specification states it, `M = round(N·Ft/Fs)`. -/
def specResampleLen (N : ℕ) (fsrc ftgt : ℚ) : ℕ :=
  (round ((N : ℚ) * (ftgt / fsrc))).toNat

/-- Numpy's `np.hanning(M)`: the length-`M` Hann window,
`0.5 - 0.5*cos(2π k/(M-1))` for `k < M`, with `np.hanning(1) = [1]`. -/
noncomputable def hanning (M : ℕ) : List ℝ :=
  if M = 1 then [1]
  else (List.range M).map (fun (k : ℕ) =>
    0.5 - 0.5 * Real.cos (2 * Real.pi * (k : ℝ) / ((M : ℝ) - 1)))

/-- Numpy's `np.convolve(a, v)` in the default `full` mode:
`out[n] = Σ_k a[k]·v[n-k]`, of length `len(a)+len(v)-1`. -/
noncomputable def convolveFull (a v : List ℝ) : List ℝ :=
  (List.range (a.length + v.length - 1)).map (fun (n : ℕ) =>
    ∑ k ∈ Finset.range (n + 1), a.getD k 0 * v.getD (n - k) 0)

/-- Numpy's `np.convolve(a, v, mode='same')`: the centered middle `max(len(a),len(v))`
entries of the full convolution. -/
noncomputable def convolveSame (a v : List ℝ) : List ℝ :=
  ((convolveFull a v).drop ((min a.length v.length - 1) / 2)).take
    (max a.length v.length)

/-- The smoothing stage of `rr.py` (line 53):
`np.convolve(filtered_envelope, np.hanning(50), mode='same')`. -/
noncomputable def windower (x : List ℝ) : List ℝ :=
  convolveSame x (hanning 50)

/-- Modelled from the spec (§4.4): the Windower contract as stated —
elementwise multiplication by a Hann window of the input's own length `N`,
with the window value defined as `1` when `N = 1`. -/
noncomputable def specHannWindowed (x : List ℝ) : List ℝ :=
  (List.range x.length).map (fun (i : ℕ) =>
    x.getD i 0 *
      (if x.length = 1 then 1
       else 0.5 * (1 - Real.cos (2 * Real.pi * (i : ℝ) / ((x.length : ℝ) - 1)))))

/-- The one-sided frequency grid returned by `scipy.signal.welch`
(`rfftfreq(L, 1/fs)`): `L/2 + 1` bins at `k·fs/L`. -/
def welchFrequencies {α : Type} [DivisionRing α] (L : ℕ) (fs : α) : List α :=
  (List.range (L / 2 + 1)).map (fun (k : ℕ) => (k : α) * fs / (L : α))

/-- The SciPy primitives the script calls, as abstract parameters.
`hilbert` returns the complex analytic signal as real/imaginary pairs;
`butter` returns the `(b, a)` coefficient pair; `welch` returns the
`(frequencies, psd)` pair. -/
structure SciPy where
  resample : List ℝ → ℕ → List ℝ
  hilbert : List ℝ → List (ℝ × ℝ)
  butter : ℕ → ℝ → List ℝ × List ℝ
  filtfilt : List ℝ → List ℝ → List ℝ → List ℝ
  welch : List ℝ → ℝ → ℕ → List ℝ × List ℝ

/-- Line 38, `np.sin(2π·1000·t)` for `t = np.arange(0, 5, 1/24000)`: the synthetic
1000 Hz sine of 120000 samples that line 38 of `rr.py` assigns over the
parsed input. -/
noncomputable def syntheticSamples : List ℝ :=
  (List.range 120000).map (fun (i : ℕ) =>
    Real.sin (2 * Real.pi * 1000 * ((i : ℝ) / 24000)))

/-- The value of the Python variable `samples` after lines 34–38:
first bound to `sys.argv[1].split(',')`, then immediately rebound to the
synthetic sine. -/
noncomputable def samplesVar (argv1 : String) : List ℝ :=
  let samples := argv1.splitOn ","
  let samples := syntheticSamples
  samples

/-- Line 41, `downsampled_samples = resample(samples, int(len(samples) * (1000 / fs)))`
with `fs = 24000`. -/
noncomputable def downsampled_samples (S : SciPy) (argv1 : String) : List ℝ :=
  resampleStage S.resample (samplesVar argv1) 24000 1000

/-- Line 44, `envelope = np.abs(hilbert(downsampled_samples))`: elementwise complex
magnitude of the analytic signal. -/
noncomputable def envelope (S : SciPy) (argv1 : String) : List ℝ :=
  (S.hilbert (downsampled_samples S argv1)).map (fun z =>
    Real.sqrt (z.1 ^ 2 + z.2 ^ 2))

/-- Lines 47-50, `b, a = butter(4, cutoff_freq / nyquist_freq, btype='low')` with
`cutoff_freq = 2`, `nyquist_freq = 1000 / 2`, then
`filtered_envelope = filtfilt(b, a, envelope)`. -/
noncomputable def filtered_envelope (S : SciPy) (argv1 : String) : List ℝ :=
  S.filtfilt (S.butter 4 (2 / (1000 / 2))).1 (S.butter 4 (2 / (1000 / 2))).2
    (envelope S argv1)

/-- Line 53, `smoothed_envelope = np.convolve(filtered_envelope, np.hanning(50),
mode='same')`. -/
noncomputable def smoothed_envelope (S : SciPy) (argv1 : String) : List ℝ :=
  windower (filtered_envelope S argv1)

/-- Line 56, `downsampled_smoothed_envelope = resample(smoothed_envelope,
int(len(smoothed_envelope) * (10 / 1000)))`. -/
noncomputable def downsampled_smoothed_envelope (S : SciPy) (argv1 : String) :
    List ℝ :=
  resampleStage S.resample (smoothed_envelope S argv1) 1000 10

/-- Line 59, `frequencies, psd = welch(downsampled_smoothed_envelope, fs=10,
nperseg=50)`. -/
noncomputable def welchOut (S : SciPy) (argv1 : String) : List ℝ × List ℝ :=
  S.welch (downsampled_smoothed_envelope S argv1) 10 50

/-- Variable `frequencies` of `rr.py`. -/
noncomputable def frequencies (S : SciPy) (argv1 : String) : List ℝ :=
  (welchOut S argv1).1

/-- Variable `psd` of `rr.py`. -/
noncomputable def psd (S : SciPy) (argv1 : String) : List ℝ :=
  (welchOut S argv1).2

/-- Lines 63-66, `peak = findPeakIndex(psd)` followed by
`respiratoryRateFrequency = frequencies[peak]` (the value the script
echoes); a Python `IndexError` on the subscript is modelled by
`PyError.indexError`. -/
noncomputable def respiratoryRateFrequency (S : SciPy) (argv1 : String) :
    Except PyError ℝ :=
  match findPeakIndex (psd S argv1) with
  | Except.error e => Except.error e
  | Except.ok peak =>
    match (frequencies S argv1).get? peak with
    | some f => Except.ok f
    | none => Except.error PyError.indexError

/-! ## Peak selection (C2, C3, C4) -/

/-- Folding the loop body over `range (n+1)` leaves the loop variable bound
to the last iterated value `n`, whichever branch the comparisons take. -/
theorem peakStep_foldl_index {α : Type} [LinearOrderedField α] (array : List α)
    (s : ℕ × α × Option ℕ) (n : ℕ) :
    ((List.range (n + 1)).foldl (peakStep array) s).2.2 = some n := by
  rw [List.range_succ, List.foldl_append, List.foldl_cons, List.foldl_nil]
  unfold peakStep
  split <;> rfl

/-- On any array with at least two entries, `findPeakIndex` returns the final
loop-variable value `len − 2`. -/
theorem findPeakIndex_of_two_le {α : Type} [LinearOrderedField α]
    (array : List α) (h : 2 ≤ array.length) :
    findPeakIndex array = Except.ok (array.length - 2) := by
  have h1 : array.length - 1 = (array.length - 2) + 1 := by omega
  unfold findPeakIndex
  rw [h1, peakStep_foldl_index]

/-- C3: for every input array of length at least 2, `findPeakIndex` returns
`len(array) − 2`, the final value of the loop variable, regardless of the
array's contents — the tracked `peakIndex` never influences the result. -/
theorem C3_findPeakIndex_returns_loop_variable {α : Type}
    [LinearOrderedField α] (array : List α) (h : 2 ≤ array.length) :
    findPeakIndex array = Except.ok (array.length - 2) :=
  findPeakIndex_of_two_le array h

theorem C3_witness :
    2 ≤ ([3, 1, 2] : List ℚ).length ∧
      findPeakIndex ([3, 1, 2] : List ℚ) =
        Except.ok (([3, 1, 2] : List ℚ).length - 2) :=
  ⟨by decide, C3_findPeakIndex_returns_loop_variable ([3, 1, 2] : List ℚ)
    (by decide)⟩

/-- C2: on the PSD `[5, 1, 1]` (maximum power at bin 0), the code's
`findPeakIndex` returns index 1 — the loop variable `len − 2` — while the
specified PeakSelector returns the first maximum bin, index 0.  The code
tracks `peakIndex`/`currentPeak` exactly as the spec describes but then
returns the wrong variable. -/
theorem C2_peak_selection_code_bug :
    findPeakIndex ([5, 1, 1] : List ℚ) = Except.ok 1 ∧
      specPeakIndex ([5, 1, 1] : List ℚ) = some 0 := by
  constructor
  · norm_num [findPeakIndex, peakStep, List.range_succ]
  · norm_num [specPeakIndex]

/-- C4 counterexample: on a zero-bin PSD the code does not fail with the
spec's EmptyInput error. -/
theorem C4_counterexample :
    findPeakIndex ([] : List ℚ) ≠ Except.error PyError.emptyInput := by
  simp [findPeakIndex]

/-- C4 (amended): on a zero-bin PSD the loop body never runs, so returning
the loop variable raises an unbound-local error — the call does fail, but
with `unboundLocal`, not a designed EmptyInput error. -/
theorem C4_empty_psd_fails_unbound_local :
    findPeakIndex ([] : List ℚ) = Except.error PyError.unboundLocal := by
  simp [findPeakIndex]

/-! ## Input noninterference (C1) -/

/-- C1: the script's final `respiratoryRateFrequency` is the same for every
pair of command-line inputs: the samples parsed from `sys.argv[1]` are
rebound to the fixed synthetic sine of length 120000 before any pipeline
stage runs, so two runs with the same library primitives and different
inputs echo the same value. -/
theorem C1_output_independent_of_input :
    (∀ (S : SciPy) (a b : String),
        respiratoryRateFrequency S a = respiratoryRateFrequency S b) ∧
      (∀ a : String, samplesVar a = syntheticSamples) ∧
      syntheticSamples.length = 120000 :=
  ⟨fun _ _ _ => rfl, fun _ => rfl, by simp [syntheticSamples]⟩

/-! ## Resampling stage lengths (C7) -/

/-- A stand-in resampler over `ℚ` obeying the scipy contract that
`resample(x, num)` has length `num`. -/
def qResample (x : List ℚ) (num : ℕ) : List ℚ :=
  List.replicate num 0

/-- C7 counterexample: at `N = 2`, `Fs = 4`, `Ft = 3` the stage requests
`int(1.5) = 1` output samples while the spec's `round(1.5) = 2`. -/
theorem C7_counterexample :
    (resampleStage qResample [1, 2] 4 3).length ≠ specResampleLen 2 4 3 ∧
      (resampleStage qResample [1, 2] 4 3).length = 1 ∧
      specResampleLen 2 4 3 = 2 := by
  norm_num [resampleStage, qResample, resampleTargetLen, specResampleLen,
    pyInt, round_eq]
  omega

/-- C7 (amended): given the library contract that `resample(x, num)` returns
`num` samples, a resampling stage of `rr.py` produces output of length
`int(N·Ft/Fs)` — Python truncation toward zero — rather than
`round(N·Ft/Fs)`. -/
theorem C7_resample_stage_truncates {α : Type} (r : List α → ℕ → List α)
    (hr : ∀ y n, (r y n).length = n) (x : List α) (fsrc ftgt : ℚ) :
    (resampleStage r x fsrc ftgt).length =
      (pyInt ((x.length : ℚ) * (ftgt / fsrc))).toNat := by
  rw [resampleStage, hr, resampleTargetLen]

theorem C7_witness :
    (resampleStage qResample [1, 2] 4 3).length =
      (pyInt ((([1, 2] : List ℚ).length : ℚ) * (3 / 4))).toNat :=
  C7_resample_stage_truncates qResample (fun y n => by simp [qResample])
    [1, 2] 4 3

/-! ## The smoothing stage (C5) -/

theorem hanning_length (M : ℕ) : (hanning M).length = M := by
  unfold hanning
  split
  · simp [*]
  · simp

theorem convolveFull_length (a v : List ℝ) :
    (convolveFull a v).length = a.length + v.length - 1 := by
  simp [convolveFull]

theorem convolveSame_length (a v : List ℝ) (ha : 1 ≤ a.length)
    (hv : 1 ≤ v.length) :
    (convolveSame a v).length = max a.length v.length := by
  simp only [convolveSame, List.length_take, List.length_drop,
    convolveFull_length]
  omega

theorem windower_length (x : List ℝ) (hx : 1 ≤ x.length) :
    (windower x).length = max x.length 50 := by
  have hv : 1 ≤ (hanning 50).length := by rw [hanning_length]; omega
  rw [windower, convolveSame_length x (hanning 50) hx hv, hanning_length]

/-- C5 counterexample: on the one-element input `[1]` the smoothing stage
returns 50 values — the 'same'-mode convolution with the fixed `hanning(50)`
— not the 1-value elementwise-windowed sequence the spec describes. -/
theorem C5_counterexample : windower [1] ≠ specHannWindowed [1] := by
  intro h
  have h1 : (windower [1]).length = 50 := by
    rw [windower_length [1] (by simp)]
    simp
  have h2 : (specHannWindowed [1]).length = 1 := by
    simp [specHannWindowed]
  rw [h, h2] at h1
  exact absurd h1 (by omega)

/-- C5 (amended): the smoothing stage is not an elementwise taper by a
same-length Hann window; it convolves the input with the fixed 50-point
Hann window in numpy 'same' mode, so for every non-empty input of length `N`
the output has length `max N 50`. -/
theorem C5_windower_is_fixed_hann_convolution (x : List ℝ)
    (hx : 1 ≤ x.length) :
    windower x = convolveSame x (hanning 50) ∧
      (windower x).length = max x.length 50 :=
  ⟨rfl, windower_length x hx⟩

theorem C5_witness :
    1 ≤ ([1, 2] : List ℝ).length ∧
      (windower [1, 2] = convolveSame [1, 2] (hanning 50) ∧
        (windower [1, 2]).length = max ([1, 2] : List ℝ).length 50) :=
  ⟨by simp, C5_windower_is_fixed_hann_convolution [1, 2] (by simp)⟩

/-! ## The welch frequency grid (C9) -/

/-- C9: the one-sided welch frequency grid for an even segment length `L` at
rate `fs` has `L/2 + 1` bins, starts at 0, ends at `fs/2`, and is strictly
increasing. -/
theorem C9_welch_frequency_grid (L : ℕ) (fs : ℚ) (hL : 0 < L)
    (he : L % 2 = 0) (hfs : 0 < fs) :
    (welchFrequencies L fs).length = L / 2 + 1 ∧
      (welchFrequencies L fs)[0]? = some 0 ∧
      (welchFrequencies L fs)[L / 2]? = some (fs / 2) ∧
      List.Pairwise (· < ·) (welchFrequencies L fs) := by
  have hL' : (0 : ℚ) < (L : ℚ) := by exact_mod_cast hL
  refine ⟨?_, ?_, ?_, ?_⟩
  · rw [welchFrequencies, List.length_map, List.length_range]
  · rw [welchFrequencies, List.getElem?_map, List.getElem?_range (by omega)]
    simp
  · rw [welchFrequencies, List.getElem?_map, List.getElem?_range (by omega)]
    have hcast : ((L / 2 : ℕ) : ℚ) * 2 = (L : ℚ) := by
      exact_mod_cast (by omega : L / 2 * 2 = L)
    have hval : ((L / 2 : ℕ) : ℚ) * fs / (L : ℚ) = fs / 2 := by
      field_simp
      linear_combination fs * hcast
    simp [hval]
  · rw [welchFrequencies]
    refine List.Pairwise.map _ ?_ (List.pairwise_lt_range (L / 2 + 1))
    intro a b hab
    rw [div_lt_div_iff_of_pos_right hL', mul_lt_mul_right hfs]
    exact_mod_cast hab

theorem C9_witness :
    (0 < 50 ∧ 50 % 2 = 0 ∧ (0 : ℚ) < 10) ∧
      ((welchFrequencies 50 (10 : ℚ)).length = 50 / 2 + 1 ∧
        (welchFrequencies 50 (10 : ℚ))[0]? = some 0 ∧
        (welchFrequencies 50 (10 : ℚ))[50 / 2]? = some (10 / 2) ∧
        List.Pairwise (· < ·) (welchFrequencies 50 (10 : ℚ))) :=
  ⟨⟨by decide, by decide, by norm_num⟩,
    C9_welch_frequency_grid 50 10 (by decide) (by decide) (by norm_num)⟩

/-! ## Envelope non-negativity (C10) -/

/-- C10: every element of the envelope stage's output is non-negative — the
stage maps the analytic signal through the magnitude `√(re² + im²)`. -/
theorem C10_envelope_nonneg (S : SciPy) (argv1 : String) (y : ℝ)
    (hy : y ∈ envelope S argv1) : 0 ≤ y := by
  rw [envelope] at hy
  obtain ⟨z, hz, rfl⟩ := List.mem_map.mp hy
  exact Real.sqrt_nonneg _

/-- SciPy stand-in whose hilbert transform returns the single analytic
sample `(3, 4)`, for witnessing the envelope property. -/
noncomputable def pointSciPy : SciPy where
  resample := fun _ n => List.replicate n 0
  hilbert := fun _ => [(3, 4)]
  butter := fun _ _ => ([1], [1])
  filtfilt := fun _ _ x => x
  welch := fun x _ _ => (x, x)

theorem C10_witness :
    Real.sqrt (3 ^ 2 + 4 ^ 2) ∈ envelope pointSciPy "" ∧
      0 ≤ Real.sqrt (3 ^ 2 + 4 ^ 2) :=
  ⟨by simp [envelope, pointSciPy], C10_envelope_nonneg pointSciPy "" _
    (by simp [envelope, pointSciPy])⟩

/-! ## The deployed welch segment (C8) and input validation (C6) -/

/-- SciPy stand-in obeying the documented output-shape contracts
(`resample` returns the requested number of samples, `hilbert` and
`filtfilt` preserve length, `welch` returns the one-sided grid and `L/2+1`
PSD bins), for witnessing the contract-hypothesised theorems. -/
noncomputable def stubSciPy : SciPy where
  resample := fun _ n => List.replicate n 0
  hilbert := fun x => x.map (fun a => (a, 0))
  butter := fun _ _ => ([1], [1])
  filtfilt := fun _ _ x => x
  welch := fun _ fs L => (welchFrequencies L fs, List.replicate (L / 2 + 1) 0)

/-- C8: under the documented SciPy length contracts, the sequence the script
hands to `welch` has length exactly 50 — equal to `nperseg = 50` — so the
segment-length precondition `1 ≤ L ≤ N` holds and the estimate is a
single-segment periodogram. -/
theorem C8_welch_input_is_single_segment (S : SciPy) (argv1 : String)
    (hres : ∀ x n, (S.resample x n).length = n)
    (hhil : ∀ x, (S.hilbert x).length = x.length)
    (hfil : ∀ b a x, (S.filtfilt b a x).length = x.length) :
    (downsampled_smoothed_envelope S argv1).length = 50 ∧
      1 ≤ 50 ∧ 50 ≤ (downsampled_smoothed_envelope S argv1).length := by
  have h0 : (samplesVar argv1).length = 120000 := by
    simp only [samplesVar, syntheticSamples, List.length_map, List.length_range]
  have h1 : (downsampled_samples S argv1).length = 5000 := by
    rw [downsampled_samples, resampleStage, hres, h0]
    norm_num [resampleTargetLen, pyInt]
    rfl
  have h2 : (envelope S argv1).length = 5000 := by
    rw [envelope, List.length_map, hhil, h1]
  have h3 : (filtered_envelope S argv1).length = 5000 := by
    rw [filtered_envelope, hfil, h2]
  have h4 : (smoothed_envelope S argv1).length = 5000 := by
    have hx : 1 ≤ (filtered_envelope S argv1).length := by omega
    rw [smoothed_envelope, windower_length _ hx, h3]
    omega
  have h5 : (downsampled_smoothed_envelope S argv1).length = 50 := by
    rw [downsampled_smoothed_envelope, resampleStage, hres, h4]
    norm_num [resampleTargetLen, pyInt]
    rfl
  exact ⟨h5, by omega, by omega⟩

theorem C8_witness :
    (downsampled_smoothed_envelope stubSciPy "").length = 50 ∧
      1 ≤ 50 ∧ 50 ≤ (downsampled_smoothed_envelope stubSciPy "").length :=
  C8_welch_input_is_single_segment stubSciPy ""
    (fun x n => by simp [stubSciPy]) (fun x => by simp [stubSciPy])
    (fun b a x => rfl)

/-- C6: the script does not validate its input: at the empty command-line
input (zero-length sample text) no InvalidLength error is raised — the
parsed input is discarded, the full pipeline runs on the synthetic buffer,
and the script echoes `frequencies[24] = 24·10/50` Hz (instantiated at the
contract-obeying SciPy stand-in). -/
theorem C6_no_invalid_length_on_empty_input :
    respiratoryRateFrequency stubSciPy "" = Except.ok ((24 : ℝ) * 10 / 50) := by
  have hpsd : psd stubSciPy "" = List.replicate 26 (0 : ℝ) := rfl
  have h2 : findPeakIndex (psd stubSciPy "") = Except.ok 24 := by
    rw [hpsd]
    have h := findPeakIndex_of_two_le (List.replicate 26 (0 : ℝ)) (by simp)
    simpa using h
  have h3 : (frequencies stubSciPy "").get? 24 = some ((24 : ℝ) * 10 / 50) := by
    rw [frequencies, welchOut]
    show (welchFrequencies 50 (10 : ℝ)).get? 24 = _
    rw [List.get?_eq_getElem?, welchFrequencies, List.getElem?_map,
      List.getElem?_range (by omega)]
    norm_num
  rw [respiratoryRateFrequency, h2]
  show (match (frequencies stubSciPy "").get? 24 with
    | some f => Except.ok f
    | none => Except.error PyError.indexError) = _
  rw [h3]
